import Mathlib

/-!
Verification of the token verifiers in `src/utils/appleTokenVerifier.js` and
`src/utils/googleTokenVerifier.js` (repository moszer/ai_cal).

The JavaScript source is shallowly embedded below.  External effects become
explicit inputs:
* the single network call each verifier makes (Apple key-set fetch, Google
  introspection) becomes a `FetchResult` value supplied to the function;
* the Node/library primitives the source delegates to (base64+JSON decoding of
  the token header via `Buffer.from`/`JSON.parse`, `jwk-to-pem`, the RS256
  signature check inside `jsonwebtoken`) become oracle functions carried in
  the environment record, since their code is third-party, not part of this
  repository;
* `process.env` configuration becomes explicit `Option String` fields.

Throw sites in the source are mapped to the error kinds of the specification's
taxonomy (`MalformedToken`, `KeySourceUnavailable`, `ProviderUnavailable`,
`KeyNotFound`, `SignatureInvalid`, `ClaimMismatch`); the source itself throws
plain `Error` values whose messages we keep verbatim, and its catch-all
boundary replaces the caller-visible message by a fixed generic one, which the
wrapper functions below reproduce.
-/

/-- A JSON scalar value, as needed to model provider response fields whose
runtime type is not fixed (`email_verified` may arrive as a boolean or a
string). -/
inductive JsVal where
  | vstr (s : String)
  | vbool (b : Bool)
  | vnum (n : Int)
deriving DecidableEq, Repr

/-- Models the JavaScript expression `x || d` for a possibly-absent string
field: an absent field or the empty string (both falsy) yield the default. -/
def jsOrD (o : Option String) (d : String) : String :=
  match o with
  | some s => if s = "" then d else s
  | none => d

/-- Models `x || ''`: absent string field defaults to the empty string. -/
def jsOr (o : Option String) : String :=
  jsOrD o ""

/-- Models JavaScript `String.prototype.split` with a single-character
separator: every maximal separator-free run becomes a segment, empty segments
preserved, and the empty string splits to `[""]`. -/
def jsSplitAux (sep : Char) : List Char → List Char → List String
  | [], acc => [String.mk acc.reverse]
  | c :: rest, acc =>
    if c = sep then String.mk acc.reverse :: jsSplitAux sep rest []
    else jsSplitAux sep rest (c :: acc)

/-- `jsSplit s sep` models `s.split(sep)` in JavaScript. -/
def jsSplit (s : String) (sep : Char) : List String :=
  jsSplitAux sep s.data []

/-- Error kinds of the specification's taxonomy (section 4.3 / 7).  The
source throws untyped `Error`s; each distinct throw site corresponds to one
kind. -/
inductive ErrKind where
  | malformedToken
  | keySourceUnavailable
  | providerUnavailable
  | keyNotFound
  | signatureInvalid
  | claimMismatch
  | unknown
deriving DecidableEq, Repr

/-- An error as thrown inside a verifier, before the catch-all boundary:
the kind identifies the throw site, `msg` is the message the source puts in
the thrown `Error`. -/
structure InternalErr where
  kind : ErrKind
  msg : String
deriving DecidableEq, Repr

/-- The error surfaced to the caller: the boundary catch block rethrows a
fresh `Error` with a fixed generic `message`; the kind and the internal
message remain available to logging only. -/
structure VerificationError where
  kind : ErrKind
  internalMessage : String
  message : String
deriving DecidableEq, Repr

/-- The canonical claims record both verifiers return (field names as in the
source's returned object literal). -/
structure IdentityClaims where
  sub : String
  email : String
  email_verified : Bool
  name : String
deriving DecidableEq, Repr

/-- Outcome of the one network call a verifier makes: a transport-level
failure (axios throwing: unreachable host, timeout, non-2xx status), or a
parsed response body. -/
inductive FetchResult (α : Type) where
  | transportError (msg : String)
  | success (body : α)
deriving DecidableEq, Repr

/-! ## Google verifier (`src/utils/googleTokenVerifier.js`) -/

/-- Fields of the Google introspection response body the source reads
(`response.data`).  Absent fields are `none`; `email_verified` keeps its JSON
scalar since the strict comparison `=== 'true'` distinguishes string from
boolean. -/
structure GoogleTokenInfo where
  aud : Option String
  sub : Option String
  email : Option String
  email_verified : Option JsVal
  name : Option String
deriving DecidableEq, Repr

/-- Process configuration read by the Google verifier:
`process.env.GOOGLE_CLIENT_ID` and `process.env.GOOGLE_IOS_CLIENT_ID`. -/
structure GoogleConfig where
  googleClientId : Option String
  googleIosClientId : Option String
deriving DecidableEq, Repr

/-- The claims object the Google verifier returns on success, field by field
as the source builds it: `sub`/`email`/`name` with `|| ''`, and
`email_verified: response.data.email_verified === 'true'`. -/
def googleClaimsOf (data : GoogleTokenInfo) : IdentityClaims :=
  { sub := jsOr data.sub
    email := jsOr data.email
    email_verified := data.email_verified == some (.vstr "true")
    name := jsOr data.name }

/-- The body of the Google verifier's `try` block, given the introspection
outcome.  A transport failure propagates (kind `providerUnavailable`); on a
response, `aud || ''` is compared with strict string inequality against both
configured identifiers (`process.env` values defaulted by `|| ''`), and a
mismatch throws `Token audience mismatch` (kind `claimMismatch`). -/
def verifyGoogleInner (cfg : GoogleConfig) (resp : FetchResult GoogleTokenInfo) :
    Except InternalErr IdentityClaims :=
  match resp with
  | .transportError m => .error ⟨.providerUnavailable, m⟩
  | .success data =>
    if jsOr data.aud ≠ jsOr cfg.googleClientId ∧ jsOr data.aud ≠ jsOr cfg.googleIosClientId then
      .error ⟨.claimMismatch, "Token audience mismatch"⟩
    else
      .ok (googleClaimsOf data)

/-- `verifyGoogleIdToken` from the source: the raw token string is passed,
uninspected, as the `id_token` query parameter of the introspection call
(modelled by the `introspect` oracle), and the catch-all boundary rethrows
every failure as `Error('Failed to verify Google token')`. -/
def verifyGoogleIdToken (cfg : GoogleConfig)
    (introspect : String → FetchResult GoogleTokenInfo) (idToken : String) :
    Except VerificationError IdentityClaims :=
  match verifyGoogleInner cfg (introspect idToken) with
  | .ok c => .ok c
  | .error e => .error ⟨e.kind, e.msg, "Failed to verify Google token"⟩

/-! ## Apple verifier (`src/utils/appleTokenVerifier.js`) -/

/-- A JSON Web Key record from the Apple key-set response: the `kid` used for
matching (absent `kid` is `none`, and JavaScript `===` makes two absent kids
match), plus the remaining key material, opaque to this verifier, consumed
only by the `jwk-to-pem` oracle. -/
structure Jwk where
  kid : Option String
  material : String
deriving DecidableEq, Repr

/-- The decoded token header, as produced by base64-decoding and JSON-parsing
the first token segment; the verifier reads only its `kid`. -/
structure JwtHeader where
  kid : Option String
deriving DecidableEq, Repr

/-- Body of the Apple key-set response: `response.data.keys`, which may be
absent (`!keys`) or an array. -/
structure AppleKeysBody where
  keys : Option (List Jwk)
deriving DecidableEq, Repr

/-- The JWT payload fields consulted by `jwt.verify`'s claim validation and by
the claims-normalising return object: registered claims `aud`, `iss`, `exp`
plus the profile fields the source extracts. -/
structure ApplePayload where
  sub : Option String
  email : Option String
  email_verified : Option JsVal
  aud : Option String
  iss : Option String
  exp : Option Int
deriving DecidableEq, Repr

/-- Environment of one `verifyAppleIdToken` call: the outcome of the single
key-set fetch, the `APPLE_CLIENT_ID` configuration, the current clock, and
oracles for the third-party primitives (header base64+JSON decode, jwk-to-pem
conversion, RS256 signature check, payload decode inside `jwt.verify`). -/
structure AppleEnv where
  fetchKeys : FetchResult AppleKeysBody
  appleClientId : Option String
  now : Int
  decodeHeader : String → Option JwtHeader
  jwkToPem : Jwk → String
  verifySig : String → String → Bool
  decodePayload : String → Option ApplePayload

/-- The audience `jwt.verify` is told to expect:
`process.env.APPLE_CLIENT_ID || 'com.aicalorie.app'`. -/
def appleAudience (env : AppleEnv) : String :=
  jsOrD env.appleClientId "com.aicalorie.app"

/-- The fixed expected issuer passed to `jwt.verify`. -/
def appleIssuer : String :=
  "https://appleid.apple.com"

/-- `true` when the token is not expired: `jsonwebtoken` rejects a token with
`exp` present once the clock reaches `exp`; a token without `exp` is never
rejected for expiry. -/
def appleNotExpired (now : Int) : Option Int → Bool
  | none => true
  | some e => decide (now < e)

/-- Model of the third-party `jsonwebtoken` primitive `jwt.verify(token, pem,
{algorithms: ['RS256'], audience, issuer})`, from its documented semantics
(this library is not part of the repository): decode the payload (failure is
a malformed-token error), check the RS256 signature against the key, reject
expired tokens, then require `aud` and `iss` to equal the expected values;
each failure throws, which the Apple verifier's boundary later catches. -/
def jwtVerify (verifySig : String → String → Bool)
    (decodePayload : String → Option ApplePayload) (now : Int)
    (token pem audience issuer : String) : Except InternalErr ApplePayload :=
  match decodePayload token with
  | none => .error ⟨.malformedToken, "jwt malformed"⟩
  | some payload =>
    if verifySig token pem = false then
      .error ⟨.signatureInvalid, "invalid signature"⟩
    else if appleNotExpired now payload.exp = false then
      .error ⟨.claimMismatch, "jwt expired"⟩
    else if payload.aud ≠ some audience then
      .error ⟨.claimMismatch, "jwt audience invalid"⟩
    else if payload.iss ≠ some issuer then
      .error ⟨.claimMismatch, "jwt issuer invalid"⟩
    else
      .ok payload

/-- The claims object the Apple verifier returns on success, as the source
builds it: `sub`/`email` with `|| ''`, `email_verified: payload.email_verified
=== true` (strict: only the boolean `true` counts), and `name` always
empty. -/
def appleClaimsOf (payload : ApplePayload) : IdentityClaims :=
  { sub := jsOr payload.sub
    email := jsOr payload.email
    email_verified := payload.email_verified == some (.vbool true)
    name := "" }

/-- The body of the Apple verifier's `try` block, step for step:
fetch the key set (transport failure or `!keys || keys.length === 0` is the
key-source-unavailable throw); split the token on `'.'` and require exactly 3
segments (`Invalid token format`); decode the first segment's header
(`Invalid token header` on failure); find the key whose `kid === header.kid`
(`No matching Apple public key found` if none); convert it to PEM and run
`jwt.verify` with the configured audience and fixed issuer. -/
def verifyAppleInner (env : AppleEnv) (identityToken : String) :
    Except InternalErr IdentityClaims :=
  match env.fetchKeys with
  | .transportError m => .error ⟨.keySourceUnavailable, m⟩
  | .success body =>
    match body.keys with
    | none => .error ⟨.keySourceUnavailable, "No Apple public keys available"⟩
    | some keys =>
      if keys.length = 0 then
        .error ⟨.keySourceUnavailable, "No Apple public keys available"⟩
      else
        if (jsSplit identityToken '.').length ≠ 3 then
          .error ⟨.malformedToken, "Invalid token format"⟩
        else
          match env.decodeHeader ((jsSplit identityToken '.').headD "") with
          | none => .error ⟨.malformedToken, "Invalid token header"⟩
          | some header =>
            match keys.find? (fun k => k.kid == header.kid) with
            | none => .error ⟨.keyNotFound, "No matching Apple public key found"⟩
            | some matchingKey =>
              match jwtVerify env.verifySig env.decodePayload env.now identityToken
                  (env.jwkToPem matchingKey) (appleAudience env) appleIssuer with
              | .error e => .error e
              | .ok payload => .ok (appleClaimsOf payload)

/-- `verifyAppleIdToken` from the source: the `try` body above wrapped by the
catch-all boundary, which rethrows every failure as
`Error('Failed to verify Apple token')`. -/
def verifyAppleIdToken (env : AppleEnv) (identityToken : String) :
    Except VerificationError IdentityClaims :=
  match verifyAppleInner env identityToken with
  | .ok c => .ok c
  | .error e => .error ⟨e.kind, e.msg, "Failed to verify Apple token"⟩

/-! ## Spec-side definition for claim C1 -/

/-- The Google audience-acceptance rule as the specification words it (NOT as
the source implements it): `aud` is accepted exactly when it equals a
configured identifier, and "an empty identifier disables that audience
match", so an empty configured identifier accepts nothing. -/
def specGoogleAudAccepts (cfg : GoogleConfig) (aud : String) : Bool :=
  (jsOr cfg.googleClientId != "" && aud == jsOr cfg.googleClientId) ||
  (jsOr cfg.googleIosClientId != "" && aud == jsOr cfg.googleIosClientId)

/-! ## Concrete data for witnesses and counterexamples -/

/-- A Google configuration with both client identifiers unset. -/
def gcfgUnset : GoogleConfig :=
  { googleClientId := none, googleIosClientId := none }

/-- A Google configuration with only the web identifier set. -/
def gcfgWeb : GoogleConfig :=
  { googleClientId := some "web-client-id", googleIosClientId := none }

/-- An introspection response with no `aud` field. -/
def grespNoAud : GoogleTokenInfo :=
  { aud := none, sub := some "user-1", email := some "u@example.com"
    email_verified := some (.vstr "true"), name := some "User One" }

/-- An introspection response whose `aud` matches `gcfgWeb` but which carries
no `sub`. -/
def grespNoSub : GoogleTokenInfo :=
  { aud := some "web-client-id", sub := none, email := none
    email_verified := none, name := none }

/-- A key record present in the fetched Apple key set. -/
def jwkW : Jwk :=
  { kid := some "key-1", material := "rsa-material" }

/-- A payload satisfying every check of `jwtVerify` for the default audience
at clock 100. -/
def applePayloadW : ApplePayload :=
  { sub := some "apple-user-1", email := some "a@example.com"
    email_verified := some (.vbool true), aud := some "com.aicalorie.app"
    iss := some "https://appleid.apple.com", exp := some 200 }

/-- An Apple environment whose oracles make the token `"h.p.s"` verify
successfully against `jwkW`. -/
def appleEnvW : AppleEnv :=
  { fetchKeys := .success ⟨some [jwkW]⟩
    appleClientId := none
    now := 100
    decodeHeader := fun _ => some ⟨some "key-1"⟩
    jwkToPem := fun _ => "pem-of-key-1"
    verifySig := fun _ _ => true
    decodePayload := fun _ => some applePayloadW }

/-- The Apple environment `appleEnvW` with an empty key array in the key-set
response. -/
def appleEnvEmptyKeys : AppleEnv :=
  { appleEnvW with fetchKeys := .success ⟨some ([] : List Jwk)⟩ }

/-- The Apple environment `appleEnvW` with a key set whose only key has a
`kid` different from the decoded header's. -/
def appleEnvOtherKid : AppleEnv :=
  { appleEnvW with fetchKeys := .success ⟨some [{ kid := some "key-2", material := "m2" }]⟩ }

/-- An introspection response whose `aud` matches neither identifier of
`gcfgWeb`. -/
def grespOtherAud : GoogleTokenInfo :=
  { aud := some "other-aud", sub := some "user-2", email := none
    email_verified := some (.vstr "false"), name := none }

/-- An introspection response whose `aud` matches `gcfgWeb` and whose
`email_verified` is the JSON boolean `true` (not the string `"true"`). -/
def grespBoolTrue : GoogleTokenInfo :=
  { aud := some "web-client-id", sub := some "user-3", email := some "g@example.com"
    email_verified := some (.vbool true), name := some "User Three" }

/-- `applePayloadW` with `email_verified` the JSON string `"true"` instead of
the boolean `true`. -/
def applePayloadStrTrue : ApplePayload :=
  { applePayloadW with email_verified := some (.vstr "true") }

/-- `appleEnvW` with the payload oracle returning `applePayloadStrTrue`. -/
def appleEnvStrTrue : AppleEnv :=
  { appleEnvW with decodePayload := fun _ => some applePayloadStrTrue }

/-! ## Helper lemmas -/

/-- If the modelled `jwt.verify` succeeds with payload `p`, then the payload
decoded from the token is `p`. -/
theorem jwtVerify_ok_decode (vs : String → String → Bool)
    (dp : String → Option ApplePayload) (now : Int) (t pem aud iss : String)
    (p : ApplePayload) (h : jwtVerify vs dp now t pem aud iss = .ok p) :
    dp t = some p := by
  unfold jwtVerify at h
  split at h
  · exact absurd h (by simp)
  case h_2 payload heq =>
    split at h
    · exact absurd h (by simp)
    split at h
    · exact absurd h (by simp)
    split at h
    · exact absurd h (by simp)
    split at h
    · exact absurd h (by simp)
    injection h with h
    rw [heq, h]

/-- Every successful Apple verification returns exactly the claims built by
`appleClaimsOf` from the token's decoded payload. -/
theorem apple_ok_claims (env : AppleEnv) (t : String) (c : IdentityClaims)
    (h : verifyAppleIdToken env t = .ok c) :
    ∃ p, env.decodePayload t = some p ∧ c = appleClaimsOf p := by
  unfold verifyAppleIdToken at h
  split at h
  case h_2 => exact absurd h (by simp)
  case h_1 c0 heq =>
    injection h with h
    subst h
    unfold verifyAppleInner at heq
    split at heq
    · exact absurd heq (by simp)
    split at heq
    · exact absurd heq (by simp)
    split at heq
    · exact absurd heq (by simp)
    split at heq
    · exact absurd heq (by simp)
    split at heq
    · exact absurd heq (by simp)
    split at heq
    · exact absurd heq (by simp)
    case h_2 key hfind =>
      split at heq
      · exact absurd heq (by simp)
      case h_2 payload hjwt =>
        injection heq with heq
        exact ⟨payload, jwtVerify_ok_decode _ _ _ _ _ _ _ _ hjwt, heq.symm⟩

/-- If the Google `try` body succeeds on a response, it returns exactly the
claims built by `googleClaimsOf` from that response. -/
theorem googleInner_ok (cfg : GoogleConfig) (r : GoogleTokenInfo)
    (c : IdentityClaims) (h : verifyGoogleInner cfg (.success r) = .ok c) :
    c = googleClaimsOf r := by
  unfold verifyGoogleInner at h
  split at h
  · exact absurd h (by simp)
  case h_2 data heq =>
    injection heq with heq
    subst heq
    split at h
    · exact absurd h (by simp)
    · injection h with h
      exact h.symm

/-- Every successful Google verification returns exactly the claims built by
`googleClaimsOf` from the introspection response. -/
theorem google_ok_claims (cfg : GoogleConfig)
    (i : String → FetchResult GoogleTokenInfo) (t : String) (r : GoogleTokenInfo)
    (c : IdentityClaims) (hi : i t = .success r)
    (h : verifyGoogleIdToken cfg i t = .ok c) : c = googleClaimsOf r := by
  unfold verifyGoogleIdToken at h
  rw [hi] at h
  split at h
  case h_1 c0 heq =>
    injection h with h
    subst h
    exact googleInner_ok cfg r _ heq
  case h_2 e heq => exact absurd h (by simp)

/-! ## Claim C1 -/

/-- Claim C1 is false as stated: with both Google client identifiers unset,
the claim's rule ("an empty identifier disables that audience match") makes
the response's absent `aud` — defaulted to `""` — acceptable to neither
identifier (second conjunct of the spec rule evaluates to `false` below), so
the claim demands a `ClaimMismatch` failure; but the source compares
`aud || ''` against the defaulted identifiers with `!==`, and `'' !== ''` is
false, so `verifyGoogleIdToken` succeeds and returns claims. -/
theorem C1_counterexample :
    specGoogleAudAccepts gcfgUnset (jsOr grespNoAud.aud) = false ∧
    verifyGoogleIdToken gcfgUnset (fun _ => .success grespNoAud) "token-1" =
      .ok ⟨"user-1", "u@example.com", true, "User One"⟩ :=
  ⟨by decide, by rfl⟩

/-- Claim C1 amended: for every Google introspection response whose `aud`
value, after JavaScript falsy-defaulting to the empty string, differs from
both configured client identifiers (themselves defaulted to the empty string
when unset), `verifyGoogleIdToken` fails with a `ClaimMismatch` error and
never returns claims, regardless of the rest of the provider response.  An
empty configured identifier does not disable its audience match: an
absent/empty `aud` equals an empty identifier and is accepted. -/
theorem C1_amended_audience_mismatch (cfg : GoogleConfig)
    (i : String → FetchResult GoogleTokenInfo) (t : String) (r : GoogleTokenInfo)
    (hi : i t = .success r)
    (hweb : jsOr r.aud ≠ jsOr cfg.googleClientId)
    (hios : jsOr r.aud ≠ jsOr cfg.googleIosClientId) :
    verifyGoogleIdToken cfg i t =
      .error ⟨.claimMismatch, "Token audience mismatch", "Failed to verify Google token"⟩ := by
  unfold verifyGoogleIdToken verifyGoogleInner
  rw [hi]
  simp [hweb, hios]

/-- `C1_amended_audience_mismatch` applied at a concrete mismatching input:
web identifier configured, iOS identifier unset, response audience a third
value. -/
theorem C1_audience_mismatch_witness :
    ((fun _ : String => FetchResult.success grespOtherAud) "token-3" = .success grespOtherAud ∧
      jsOr grespOtherAud.aud ≠ jsOr gcfgWeb.googleClientId ∧
      jsOr grespOtherAud.aud ≠ jsOr gcfgWeb.googleIosClientId) ∧
    verifyGoogleIdToken gcfgWeb (fun _ => .success grespOtherAud) "token-3" =
      .error ⟨.claimMismatch, "Token audience mismatch", "Failed to verify Google token"⟩ :=
  ⟨⟨rfl, by decide, by decide⟩,
    C1_amended_audience_mismatch gcfgWeb (fun _ => .success grespOtherAud) "token-3"
      grespOtherAud rfl (by decide) (by decide)⟩

/-! ## Claim C2 -/

/-- Claim C2 is false as stated: a Google introspection response with a
matching audience but no `sub` field verifies successfully, and the returned
claims carry the empty subject (`sub: response.data.sub || ''`); so
verification can succeed with an empty subject. -/
theorem C2_counterexample :
    verifyGoogleIdToken gcfgWeb (fun _ => .success grespNoSub) "token-2" =
      .ok ⟨"", "", false, ""⟩ ∧
    (IdentityClaims.mk "" "" false "").sub = "" :=
  ⟨by rfl, rfl⟩

/-- Claim C2 amended: for every successful verification (Apple or Google),
the returned subject is the provider's `sub` field when present and the empty
string when the provider omits it; verification can succeed with an empty
subject, and callers must treat that as "no stable identity". -/
theorem C2_amended_subject (env : AppleEnv) (ta : String) (p : ApplePayload)
    (cfg : GoogleConfig) (i : String → FetchResult GoogleTokenInfo) (tg : String)
    (r : GoogleTokenInfo) (ca cg : IdentityClaims)
    (hp : env.decodePayload ta = some p)
    (hA : verifyAppleIdToken env ta = .ok ca)
    (hi : i tg = .success r)
    (hG : verifyGoogleIdToken cfg i tg = .ok cg) :
    ca.sub = jsOr p.sub ∧ cg.sub = jsOr r.sub := by
  obtain ⟨p2, hp2, hca⟩ := apple_ok_claims env ta ca hA
  rw [hp] at hp2
  injection hp2 with hp2
  subst hp2
  have hcg := google_ok_claims cfg i tg r cg hi hG
  subst hca
  subst hcg
  exact ⟨rfl, rfl⟩

/-- `C2_amended_subject` applied at concrete inputs: an Apple verification
that succeeds with payload `applePayloadW`, and a Google verification that
succeeds on a response with no `sub` (yielding the empty subject). -/
theorem C2_subject_witness :
    (appleEnvW.decodePayload "h.p.s" = some applePayloadW ∧
      verifyAppleIdToken appleEnvW "h.p.s" =
        .ok ⟨"apple-user-1", "a@example.com", true, ""⟩ ∧
      (fun _ : String => FetchResult.success grespNoSub) "token-2" = .success grespNoSub ∧
      verifyGoogleIdToken gcfgWeb (fun _ => .success grespNoSub) "token-2" =
        .ok ⟨"", "", false, ""⟩) ∧
    ((IdentityClaims.mk "apple-user-1" "a@example.com" true "").sub = jsOr applePayloadW.sub ∧
      (IdentityClaims.mk "" "" false "").sub = jsOr grespNoSub.sub) :=
  ⟨⟨rfl, by rfl, rfl, by rfl⟩,
    C2_amended_subject appleEnvW "h.p.s" applePayloadW gcfgWeb
      (fun _ => .success grespNoSub) "token-2" grespNoSub
      ⟨"apple-user-1", "a@example.com", true, ""⟩ ⟨"", "", false, ""⟩
      rfl (by rfl) rfl (by rfl)⟩

/-! ## Claim C3 -/

/-- Claim C3: for a well-formed Apple token (key set fetched and non-empty,
three segments, header decoded, `kid` matched to a key, payload decoded),
verification succeeds exactly when the RS256 signature verifies against the
PEM of the matched key, the token is not expired, the `aud` claim equals the
configured client identifier (`APPLE_CLIENT_ID || 'com.aicalorie.app'`) and
the `iss` claim equals `https://appleid.apple.com`; whenever any of these
checks fails the result is a verification error, never returned claims. -/
theorem C3_apple_checks (env : AppleEnv) (t : String) (body : AppleKeysBody)
    (ks : List Jwk) (hd : JwtHeader) (k : Jwk) (p : ApplePayload) (c : IdentityClaims)
    (hf : env.fetchKeys = .success body) (hk : body.keys = some ks) (hn : ks.length ≠ 0)
    (h3 : (jsSplit t '.').length = 3)
    (hh : env.decodeHeader ((jsSplit t '.').headD "") = some hd)
    (hfind : ks.find? (fun key => key.kid == hd.kid) = some k)
    (hp : env.decodePayload t = some p) :
    verifyAppleIdToken env t = .ok c ↔
      (env.verifySig t (env.jwkToPem k) = true ∧
        appleNotExpired env.now p.exp = true ∧
        p.aud = some (appleAudience env) ∧
        p.iss = some appleIssuer ∧
        c = appleClaimsOf p) := by
  unfold verifyAppleIdToken verifyAppleInner jwtVerify
  simp only [List.headD_eq_head?] at hh
  by_cases hs : env.verifySig t (env.jwkToPem k) = false
  · simp [hf, hk, hh, hfind, hp, hn, h3, hs]
  · by_cases he : appleNotExpired env.now p.exp = false
    · simp [hf, hk, hh, hfind, hp, hn, h3, hs, he]
    · by_cases ha : p.aud = some (appleAudience env)
      · by_cases hi : p.iss = some appleIssuer
        · simp [hf, hk, hh, hfind, hp, hn, h3, hs, he, ha, hi]
          exact eq_comm
        · simp [hf, hk, hh, hfind, hp, hn, h3, hs, he, ha, hi]
      · simp [hf, hk, hh, hfind, hp, hn, h3, hs, he, ha]

/-- `C3_apple_checks` applied at the concrete environment `appleEnvW` and the
token `"h.p.s"`, whose checks all pass. -/
theorem C3_apple_checks_witness :
    (appleEnvW.fetchKeys = .success ⟨some [jwkW]⟩ ∧
      (AppleKeysBody.mk (some [jwkW])).keys = some [jwkW] ∧
      ([jwkW] : List Jwk).length ≠ 0 ∧
      (jsSplit "h.p.s" '.').length = 3 ∧
      appleEnvW.decodeHeader ((jsSplit "h.p.s" '.').headD "") = some ⟨some "key-1"⟩ ∧
      ([jwkW] : List Jwk).find? (fun key => key.kid == (JwtHeader.mk (some "key-1")).kid) = some jwkW ∧
      appleEnvW.decodePayload "h.p.s" = some applePayloadW) ∧
    (verifyAppleIdToken appleEnvW "h.p.s" = .ok (appleClaimsOf applePayloadW) ↔
      (appleEnvW.verifySig "h.p.s" (appleEnvW.jwkToPem jwkW) = true ∧
        appleNotExpired appleEnvW.now applePayloadW.exp = true ∧
        applePayloadW.aud = some (appleAudience appleEnvW) ∧
        applePayloadW.iss = some appleIssuer ∧
        appleClaimsOf applePayloadW = appleClaimsOf applePayloadW)) :=
  ⟨⟨rfl, rfl, by decide, by decide, rfl, by rfl, rfl⟩,
    C3_apple_checks appleEnvW "h.p.s" ⟨some [jwkW]⟩ [jwkW] ⟨some "key-1"⟩ jwkW
      applePayloadW (appleClaimsOf applePayloadW)
      rfl rfl (by decide) (by decide) rfl (by rfl) rfl⟩

/-! ## Claim C4 -/

/-- Claim C4: for every Apple token payload, the returned `email_verified` is
`true` exactly when the payload's `email_verified` field is the JSON boolean
`true` (`payload.email_verified === true`); the string `"true"`, any other
value, and absence all map to `false`. -/
theorem C4_apple_email_verified (env : AppleEnv) (t : String) (p : ApplePayload)
    (c : IdentityClaims) (hp : env.decodePayload t = some p)
    (h : verifyAppleIdToken env t = .ok c) :
    (c.email_verified = true ↔ p.email_verified = some (.vbool true)) := by
  obtain ⟨p2, hp2, hc⟩ := apple_ok_claims env t c h
  rw [hp] at hp2
  injection hp2 with hp2
  subst hp2
  subst hc
  simp [appleClaimsOf]

/-- `C4_apple_email_verified` applied at a concrete input whose payload's
`email_verified` is the string `"true"`: verification succeeds and the
returned `email_verified` is `false`. -/
theorem C4_apple_email_verified_witness :
    (appleEnvStrTrue.decodePayload "h.p.s" = some applePayloadStrTrue ∧
      verifyAppleIdToken appleEnvStrTrue "h.p.s" =
        .ok ⟨"apple-user-1", "a@example.com", false, ""⟩) ∧
    ((IdentityClaims.mk "apple-user-1" "a@example.com" false "").email_verified = true ↔
      applePayloadStrTrue.email_verified = some (.vbool true)) :=
  ⟨⟨rfl, by rfl⟩,
    C4_apple_email_verified appleEnvStrTrue "h.p.s" applePayloadStrTrue
      ⟨"apple-user-1", "a@example.com", false, ""⟩ rfl (by rfl)⟩

/-! ## Claim C5 -/

/-- Claim C5: for every Google introspection response, the returned
`email_verified` is `true` exactly when the response's `email_verified` field
is the JSON string `"true"` (`response.data.email_verified === 'true'`); the
string `"false"`, the string `"1"`, the boolean `true`, and an absent field
all map to `false`. -/
theorem C5_google_email_verified (cfg : GoogleConfig)
    (i : String → FetchResult GoogleTokenInfo) (t : String) (r : GoogleTokenInfo)
    (c : IdentityClaims) (hi : i t = .success r)
    (h : verifyGoogleIdToken cfg i t = .ok c) :
    (c.email_verified = true ↔ r.email_verified = some (.vstr "true")) := by
  have hc := google_ok_claims cfg i t r c hi h
  subst hc
  simp [googleClaimsOf]

/-- `C5_google_email_verified` applied at a concrete input whose response
carries the JSON boolean `true` in `email_verified`: verification succeeds and
the returned `email_verified` is `false`. -/
theorem C5_google_email_verified_witness :
    ((fun _ : String => FetchResult.success grespBoolTrue) "token-4" = .success grespBoolTrue ∧
      verifyGoogleIdToken gcfgWeb (fun _ => .success grespBoolTrue) "token-4" =
        .ok ⟨"user-3", "g@example.com", false, "User Three"⟩) ∧
    ((IdentityClaims.mk "user-3" "g@example.com" false "User Three").email_verified = true ↔
      grespBoolTrue.email_verified = some (.vstr "true")) :=
  ⟨⟨rfl, by rfl⟩,
    C5_google_email_verified gcfgWeb (fun _ => .success grespBoolTrue) "token-4"
      grespBoolTrue ⟨"user-3", "g@example.com", false, "User Three"⟩ rfl (by rfl)⟩

/-! ## Claim C6 -/

/-- Claim C6: for every input string that does not split into exactly three
dot-delimited segments, and for every configuration and environment in which
the key-set fetch did not fail first (transport succeeded, `keys` present and
non-empty, as the algorithm's step order requires), `verifyAppleIdToken`
fails with a `MalformedToken` error. -/
theorem C6_malformed_token (env : AppleEnv) (t : String) (body : AppleKeysBody)
    (ks : List Jwk) (hf : env.fetchKeys = .success body) (hk : body.keys = some ks)
    (hn : ks.length ≠ 0) (h3 : (jsSplit t '.').length ≠ 3) :
    verifyAppleIdToken env t =
      .error ⟨.malformedToken, "Invalid token format", "Failed to verify Apple token"⟩ := by
  unfold verifyAppleIdToken verifyAppleInner
  simp [hf, hk, hn, h3]

/-- `C6_malformed_token` applied at the token `"nodots"`, which splits into a
single segment. -/
theorem C6_malformed_token_witness :
    (appleEnvW.fetchKeys = .success ⟨some [jwkW]⟩ ∧
      (AppleKeysBody.mk (some [jwkW])).keys = some [jwkW] ∧
      ([jwkW] : List Jwk).length ≠ 0 ∧
      (jsSplit "nodots" '.').length ≠ 3) ∧
    verifyAppleIdToken appleEnvW "nodots" =
      .error ⟨.malformedToken, "Invalid token format", "Failed to verify Apple token"⟩ :=
  ⟨⟨rfl, rfl, by decide, by decide⟩,
    C6_malformed_token appleEnvW "nodots" ⟨some [jwkW]⟩ [jwkW] rfl rfl (by decide) (by decide)⟩

/-! ## Claim C7 -/

/-- Claim C7: for every Apple key-set response whose `keys` array is missing
or empty, `verifyAppleIdToken` fails with a `KeySourceUnavailable` error, for
every input token; and no signature check is attempted: the result is the
same under every signature oracle. -/
theorem C7_empty_keys (env : AppleEnv) (t : String) (body : AppleKeysBody)
    (hf : env.fetchKeys = .success body)
    (hk : body.keys = none ∨ body.keys = some ([] : List Jwk)) :
    verifyAppleIdToken env t =
      .error ⟨.keySourceUnavailable, "No Apple public keys available",
        "Failed to verify Apple token"⟩ ∧
    (∀ sig : String → String → Bool,
      verifyAppleIdToken { env with verifySig := sig } t =
        .error ⟨.keySourceUnavailable, "No Apple public keys available",
          "Failed to verify Apple token"⟩) := by
  have main : ∀ e : AppleEnv, e.fetchKeys = .success body →
      verifyAppleIdToken e t =
        .error ⟨.keySourceUnavailable, "No Apple public keys available",
          "Failed to verify Apple token"⟩ := by
    intro e hfe
    unfold verifyAppleIdToken verifyAppleInner
    rcases hk with hk | hk
    · simp [hfe, hk]
    · simp [hfe, hk]
  exact ⟨main env hf, fun sig => main { env with verifySig := sig } hf⟩

/-- `C7_empty_keys` applied at the environment `appleEnvEmptyKeys`, whose
key-set response carries an empty `keys` array, with a structurally valid
token. -/
theorem C7_empty_keys_witness :
    (appleEnvEmptyKeys.fetchKeys = .success ⟨some ([] : List Jwk)⟩ ∧
      ((AppleKeysBody.mk (some ([] : List Jwk))).keys = none ∨
        (AppleKeysBody.mk (some ([] : List Jwk))).keys = some ([] : List Jwk))) ∧
    (verifyAppleIdToken appleEnvEmptyKeys "h.p.s" =
      .error ⟨.keySourceUnavailable, "No Apple public keys available",
        "Failed to verify Apple token"⟩ ∧
    (∀ sig : String → String → Bool,
      verifyAppleIdToken { appleEnvEmptyKeys with verifySig := sig } "h.p.s" =
        .error ⟨.keySourceUnavailable, "No Apple public keys available",
          "Failed to verify Apple token"⟩)) :=
  ⟨⟨rfl, Or.inr rfl⟩,
    C7_empty_keys appleEnvEmptyKeys "h.p.s" ⟨some ([] : List Jwk)⟩ rfl (Or.inr rfl)⟩

/-! ## Claim C8 -/

/-- Claim C8 is false as stated for N = 0: with a fetched key set of zero
keys (so that the decoded header's `kid` vacuously matches no key in the
set), the verifier fails with the key-source-unavailable error thrown by the
`!keys || keys.length === 0` check, not with `KeyNotFound` as the claim's
"N ≥ 0" demands — the two kinds are distinct. -/
theorem C8_counterexample :
    verifyAppleIdToken appleEnvEmptyKeys "h.p.s" =
      .error ⟨.keySourceUnavailable, "No Apple public keys available",
        "Failed to verify Apple token"⟩ ∧
    ErrKind.keySourceUnavailable ≠ ErrKind.keyNotFound :=
  ⟨by rfl, by decide⟩

/-- Claim C8 amended: for every Apple token whose decoded header `kid`
matches no key in the fetched key set of N keys with N ≥ 1,
`verifyAppleIdToken` fails with a `KeyNotFound` error and never returns
claims (for N = 0 it fails with `KeySourceUnavailable` instead, before the
token is inspected); no fallback or implicit trust exists, and nothing
beyond the single key-set fetch is consulted: the result is unchanged under
every signature, PEM-conversion and payload oracle. -/
theorem C8_amended_key_not_found (env : AppleEnv) (t : String) (body : AppleKeysBody)
    (ks : List Jwk) (hd : JwtHeader)
    (hf : env.fetchKeys = .success body) (hk : body.keys = some ks) (hn : ks.length ≠ 0)
    (h3 : (jsSplit t '.').length = 3)
    (hh : env.decodeHeader ((jsSplit t '.').headD "") = some hd)
    (hfind : ks.find? (fun key => key.kid == hd.kid) = none) :
    verifyAppleIdToken env t =
      .error ⟨.keyNotFound, "No matching Apple public key found",
        "Failed to verify Apple token"⟩ ∧
    (∀ (sig : String → String → Bool) (pem : Jwk → String)
      (dp : String → Option ApplePayload),
      verifyAppleIdToken { env with verifySig := sig, jwkToPem := pem, decodePayload := dp } t =
        .error ⟨.keyNotFound, "No matching Apple public key found",
          "Failed to verify Apple token"⟩) := by
  simp only [List.headD_eq_head?] at hh
  have main : ∀ e : AppleEnv, e.fetchKeys = .success body →
      e.decodeHeader ((jsSplit t '.').head?.getD "") = some hd →
      verifyAppleIdToken e t =
        .error ⟨.keyNotFound, "No matching Apple public key found",
          "Failed to verify Apple token"⟩ := by
    intro e hfe hhe
    unfold verifyAppleIdToken verifyAppleInner
    simp [hfe, hk, hn, h3, hhe, hfind]
  exact ⟨main env hf hh,
    fun sig pem dp => main { env with verifySig := sig, jwkToPem := pem, decodePayload := dp } hf hh⟩

/-- `C8_amended_key_not_found` applied at the environment `appleEnvOtherKid`,
whose single fetched key has `kid` `"key-2"` while the decoded token header
carries `kid` `"key-1"`. -/
theorem C8_key_not_found_witness :
    (appleEnvOtherKid.fetchKeys = .success ⟨some [Jwk.mk (some "key-2") "m2"]⟩ ∧
      (AppleKeysBody.mk (some [Jwk.mk (some "key-2") "m2"])).keys = some [Jwk.mk (some "key-2") "m2"] ∧
      ([Jwk.mk (some "key-2") "m2"] : List Jwk).length ≠ 0 ∧
      (jsSplit "h.p.s" '.').length = 3 ∧
      appleEnvOtherKid.decodeHeader ((jsSplit "h.p.s" '.').headD "") = some ⟨some "key-1"⟩ ∧
      ([Jwk.mk (some "key-2") "m2"] : List Jwk).find?
        (fun key => key.kid == (JwtHeader.mk (some "key-1")).kid) = none) ∧
    (verifyAppleIdToken appleEnvOtherKid "h.p.s" =
      .error ⟨.keyNotFound, "No matching Apple public key found",
        "Failed to verify Apple token"⟩ ∧
    (∀ (sig : String → String → Bool) (pem : Jwk → String)
      (dp : String → Option ApplePayload),
      verifyAppleIdToken { appleEnvOtherKid with verifySig := sig, jwkToPem := pem, decodePayload := dp } "h.p.s" =
        .error ⟨.keyNotFound, "No matching Apple public key found",
          "Failed to verify Apple token"⟩)) :=
  ⟨⟨rfl, rfl, by decide, by decide, rfl, by rfl⟩,
    C8_amended_key_not_found appleEnvOtherKid "h.p.s" ⟨some [Jwk.mk (some "key-2") "m2"]⟩
      [Jwk.mk (some "key-2") "m2"] ⟨some "key-1"⟩ rfl rfl (by decide) (by decide) rfl (by rfl)⟩

/-! ## Claim C9 -/

/-- Claim C9: every failure, of any internal kind, surfaces to the caller
with the verifier's one fixed generic message — `Failed to verify Apple
token` for the Apple verifier, `Failed to verify Google token` for the
Google verifier — regardless of which specific check failed; only the kind
and internal message, which stay behind the boundary, discriminate. -/
theorem C9_generic_message :
    (∀ (env : AppleEnv) (t : String) (e : VerificationError),
      verifyAppleIdToken env t = .error e → e.message = "Failed to verify Apple token") ∧
    (∀ (cfg : GoogleConfig) (i : String → FetchResult GoogleTokenInfo) (t : String)
      (e : VerificationError),
      verifyGoogleIdToken cfg i t = .error e → e.message = "Failed to verify Google token") := by
  constructor
  · intro env t e h
    unfold verifyAppleIdToken at h
    split at h
    · exact absurd h (by simp)
    · injection h with h
      subst h
      rfl
  · intro cfg i t e h
    unfold verifyGoogleIdToken at h
    split at h
    · exact absurd h (by simp)
    · injection h with h
      subst h
      rfl

/-- `C9_generic_message` applied at two concrete failures of different
internal kinds: a malformed Apple token and a Google audience mismatch. -/
theorem C9_generic_message_witness :
    (verifyAppleIdToken appleEnvW "nodots" =
        .error ⟨.malformedToken, "Invalid token format", "Failed to verify Apple token"⟩ ∧
      (VerificationError.mk .malformedToken "Invalid token format"
        "Failed to verify Apple token").message = "Failed to verify Apple token") ∧
    (verifyGoogleIdToken gcfgWeb (fun _ => .success grespOtherAud) "token-3" =
        .error ⟨.claimMismatch, "Token audience mismatch", "Failed to verify Google token"⟩ ∧
      (VerificationError.mk .claimMismatch "Token audience mismatch"
        "Failed to verify Google token").message = "Failed to verify Google token") :=
  ⟨⟨by rfl, C9_generic_message.1 appleEnvW "nodots" _ (by rfl)⟩,
    ⟨by rfl, C9_generic_message.2 gcfgWeb (fun _ => .success grespOtherAud) "token-3" _ (by rfl)⟩⟩

/-! ## Claim C10 -/

/-- Claim C10: `verifyGoogleIdToken` performs no structural validation of the
input token.  First conjunct: the outcome is a function of the introspection
response and the configuration only — two calls whose introspection outcomes
agree give the same result, whatever the raw token strings are (the raw
string is submitted as-is and never inspected locally).  Second conjunct: no
failure ever carries the `MalformedToken` kind. -/
theorem C10_google_no_structural_validation :
    (∀ (cfg : GoogleConfig) (i j : String → FetchResult GoogleTokenInfo) (t u : String),
      i t = j u → verifyGoogleIdToken cfg i t = verifyGoogleIdToken cfg j u) ∧
    (∀ (cfg : GoogleConfig) (i : String → FetchResult GoogleTokenInfo) (t : String)
      (e : VerificationError),
      verifyGoogleIdToken cfg i t = .error e → e.kind ≠ .malformedToken) := by
  constructor
  · intro cfg i j t u h
    unfold verifyGoogleIdToken
    rw [h]
  · intro cfg i t e h
    unfold verifyGoogleIdToken at h
    split at h
    · exact absurd h (by simp)
    case h_2 e0 heq =>
      injection h with h
      subst h
      unfold verifyGoogleInner at heq
      split at heq
      · injection heq with heq
        rw [← heq]
        simp
      · split at heq
        · injection heq with heq
          rw [← heq]
          simp
        · exact absurd heq (by simp)

/-- `C10_google_no_structural_validation` applied at concrete inputs: the
empty string and a non-three-segment string produce identical outcomes under
an introspection oracle that ignores the token, and a concrete failure's kind
is not `MalformedToken`. -/
theorem C10_google_witness :
    (((fun _ : String => FetchResult.success grespOtherAud) "" =
        (fun _ : String => FetchResult.success grespOtherAud) "not-a-jwt" ∧
      verifyGoogleIdToken gcfgWeb (fun _ => .success grespOtherAud) "" =
        verifyGoogleIdToken gcfgWeb (fun _ => .success grespOtherAud) "not-a-jwt") ∧
    (verifyGoogleIdToken gcfgWeb (fun _ => .success grespOtherAud) "" =
        .error ⟨.claimMismatch, "Token audience mismatch", "Failed to verify Google token"⟩ ∧
      (VerificationError.mk .claimMismatch "Token audience mismatch"
        "Failed to verify Google token").kind ≠ ErrKind.malformedToken)) :=
  ⟨⟨rfl, C10_google_no_structural_validation.1 gcfgWeb _ _ "" "not-a-jwt" rfl⟩,
    ⟨by rfl, C10_google_no_structural_validation.2 gcfgWeb
      (fun _ => .success grespOtherAud) "" _ (by rfl)⟩⟩
